import Mathlib

/-!
Shallow embedding of the ESP32 face-recognition lock program (src/py.py).

The external vision pipeline (cv2 Haar cascade detection, is_valid_face,
DeepFace embedding extraction) is modelled by recording its per-frame outputs
in a `Frame` value: the list of detected boxes, whether the single crop passes
is_valid_face, and the result of extract_face_embedding.  Cosine similarity
(sklearn) is an abstract parameter `sim`.  Wall-clock time (time.time(), in
seconds) is modelled as a rational number.  The saved_names directory tree is
modelled as a list of `StoreDir` values: one per sub-directory, carrying the
contents of its embeddings.pkl file when that file exists.
-/

/-- Configuration constants from src/py.py lines 22-27.  CONFIDENCE_THRESHOLD
is the source literal 0.4, REGISTRATION_DURATION the literal 7 (seconds). -/
def REGISTRATION_DURATION : ℚ := 7

/-- The source literal 0.4 at src/py.py line 24. -/
def CONFIDENCE_THRESHOLD : ℚ := 2/5

/-- MAX_REGISTRATION_IMAGES, src/py.py line 26. -/
def MAX_REGISTRATION_IMAGES : Nat := 10

/-- MIN_REGISTRATION_FACES, src/py.py line 27. -/
def MIN_REGISTRATION_FACES : Nat := 3

/-- The minimum spacing between accepted captures: the source literal 0.5
(seconds) at src/py.py line 427. -/
def CAPTURE_SPACING : ℚ := 1/2

/-- A face embedding as returned by extract_face_embedding: an ordered
fixed-length numeric vector, treated opaquely. -/
abbrev Embedding := List ℚ

/-- A detection rectangle (x, y, w, h) as returned by detectMultiScale. -/
structure FaceBox where
  x : Nat
  y : Nat
  w : Nat
  h : Nat
deriving DecidableEq, Repr

/-- The outputs of the external vision pipeline on one frame: the boxes
returned by face_cascade.detectMultiScale, whether the (single) cropped face
passes is_valid_face, and the result of extract_face_embedding on that crop
(none models an extraction failure).  The last two fields are only consulted
when `detected` is a singleton, matching the source control flow. -/
structure Frame where
  detected : List FaceBox
  crop_valid : Bool
  embedding : Option Embedding
deriving DecidableEq, Repr

/-- One iteration of the registration capture loop: the time.time() value at
that iteration together with the frame read from the camera.  The several
time.time() calls inside one loop iteration of the source are fractions of a
millisecond apart and are modelled as a single instant. -/
structure Tick where
  t : ℚ
  frame : Frame
deriving DecidableEq, Repr

/-- One sub-directory of registered_faces/saved_names: its name and, when an
embeddings.pkl file exists inside it, the ordered embedding list stored
there. -/
structure StoreDir where
  name : String
  pkl : Option (List Embedding)
deriving DecidableEq, Repr

/-- The global mutable state of the program that the claims are about:
the saved_names directory tree, person_counter, name_map,
registration_in_progress, is_unlocked and status_text
(src/py.py lines 68-78). -/
structure SysState where
  dirs : List StoreDir
  person_counter : Nat
  name_map : List (Nat × String)
  registration_in_progress : Bool
  is_unlocked : Bool
  status_text : String
deriving DecidableEq, Repr

/-- The state at program start (src/py.py lines 68-78). -/
def initState : SysState :=
  { dirs := [], person_counter := 1, name_map := [],
    registration_in_progress := false, is_unlocked := false,
    status_text := "System Ready" }

/-- The user id string built at src/py.py line 400. -/
def userId (n : Nat) : String := "Person_" ++ toString n

/-- The per-identity directory name built at src/py.py line 401. -/
def userDirName (n : Nat) : String := "person_" ++ toString n

/-- os.makedirs(user_dir, exist_ok=True) (src/py.py line 404): create the
directory if it is not already present; a fresh directory has no
embeddings.pkl. -/
def ensureDir (dirs : List StoreDir) (nm : String) : List StoreDir :=
  if dirs.any (fun d => d.name == nm) then dirs else dirs ++ [⟨nm, none⟩]

/-- pickle.dump of the embeddings list into user_dir/embeddings.pkl
(src/py.py lines 467-468): overwrite the pkl of the directory named nm. -/
def setPkl (dirs : List StoreDir) (nm : String) (embs : List Embedding) :
    List StoreDir :=
  dirs.map (fun d => if d.name == nm then ⟨nm, some embs⟩ else d)

/-- shutil.rmtree(user_dir, ignore_errors=True) (src/py.py lines 482, 485,
491): drop the directory named nm, succeeding even if it is absent. -/
def removeDir (dirs : List StoreDir) (nm : String) : List StoreDir :=
  dirs.filter (fun d => !(d.name == nm))

/-- Reading user_dir/embeddings.pkl: the stored embedding list of the
directory named nm, if that directory exists and holds a pkl file. -/
def pklOf (dirs : List StoreDir) (nm : String) : Option (List Embedding) :=
  (dirs.find? (fun d => d.name == nm)).bind StoreDir.pkl

/-- get_face_count (src/py.py lines 385-391): the number of sub-directories
of saved_names (every entry of `dirs` is a directory). -/
def get_face_count (s : SysState) : Nat := s.dirs.length

/-- The reset branch of the mouse handler (src/py.py lines 609-618): remove
the whole saved_names tree and recreate it empty, reset person_counter to 1,
clear name_map, relock, set the status string.  The
send_serial_command "reset" call there does not touch this state. -/
def resetSystem (s : SysState) : SysState :=
  { s with dirs := [], person_counter := 1, name_map := [],
           is_unlocked := false, status_text := "System reset completed" }

/-- The capture while-loop of register_face (src/py.py lines 410-459), with
start the time.time() value taken at line 405, lc the last_capture value and
n the current len(faces).  Each iteration: stop when the duration cap or the
image cap is reached; otherwise read one frame, and accept its crop as a
sample only when exactly one face was detected, the crop passes
is_valid_face, more than CAPTURE_SPACING elapsed since the last accepted
capture, and embedding extraction succeeds.  An accepted sample records its
capture time (the new last_capture) and its embedding. -/
def captureAux (start : ℚ) : ℚ → Nat → List Tick → List (ℚ × Embedding)
  | _, _, [] => []
  | lc, n, tick :: rest =>
    if tick.t - start < REGISTRATION_DURATION ∧ n < MAX_REGISTRATION_IMAGES then
      match tick.frame.detected with
      | [_] =>
        if tick.frame.crop_valid = true ∧ tick.t - lc > CAPTURE_SPACING then
          match tick.frame.embedding with
          | some emb => (tick.t, emb) :: captureAux start tick.t (n + 1) rest
          | none => captureAux start lc n rest
        else captureAux start lc n rest
      | _ => captureAux start lc n rest
    else []

/-- The first statement of register_face (src/py.py line 397): raise the
mutual-exclusion flag. -/
def register_face_entry (s : SysState) : SysState :=
  { s with registration_in_progress := true }

/-- register_face (src/py.py lines 393-497).  The camera interaction of the
capture loop is the tick list (see captureAux, with last_capture starting at
0 and faces empty); saveOk is whether the pickle.dump of embeddings.pkl at
lines 467-468 succeeds; crashed is whether an unexpected exception interrupts
the session body before the commit check (the outer except at line 489).
Returns the Python return value together with the new global state; the
finally block at lines 494-495 clears registration_in_progress on every
path.  On commit the source also calls send_serial_command "unlock", which
does not touch this state. -/
def register_face (start : ℚ) (ticks : List Tick) (saveOk crashed : Bool)
    (s : SysState) : Option String × SysState :=
  let s1 := register_face_entry s
  let uid := userId s1.person_counter
  let udir := userDirName s1.person_counter
  let s2 : SysState := { s1 with dirs := ensureDir s1.dirs udir }
  if crashed then
    (none, { s2 with dirs := removeDir s2.dirs udir,
                     status_text := "Registration failed - error occurred",
                     registration_in_progress := false })
  else
    let captured := captureAux start 0 0 ticks
    let embeddings := captured.map Prod.snd
    if MIN_REGISTRATION_FACES ≤ embeddings.length then
      if saveOk then
        (some uid,
         { s2 with dirs := setPkl s2.dirs udir embeddings,
                   name_map := s2.name_map ++ [(s2.person_counter, uid)],
                   person_counter := s2.person_counter + 1,
                   status_text := "Successfully registered " ++ uid,
                   registration_in_progress := false })
      else
        (none, { s2 with dirs := removeDir s2.dirs udir,
                         status_text := "Registration failed - save error",
                         registration_in_progress := false })
    else
      (none, { s2 with dirs := removeDir s2.dirs udir,
                       status_text := "Registration failed - only " ++
                         toString embeddings.length ++ " faces captured",
                       registration_in_progress := false })

/-- The verification decision triple returned by verify_face: the unlock
decision, the face box when one was isolated, and the reported confidence
(a percentage; the source returns Python None where this is none). -/
structure VerifyResult where
  unlocked : Bool
  box : Option FaceBox
  confidence : Option ℚ
deriving DecidableEq, Repr

/-- The inner loop over one saved embedding list (src/py.py lines 539-543):
keep the best (strictly improving) similarity score and its folder. -/
def scanEmb (sim : Embedding → Embedding → ℚ) (test : Embedding)
    (folder : String) :
    List Embedding → ℚ × Option String → ℚ × Option String
  | [], best => best
  | emb :: rest, best =>
      scanEmb sim test folder rest
        (if sim test emb > best.1 then (sim test emb, some folder) else best)

/-- The scan over every saved_names sub-directory (src/py.py lines 528-545):
directories without an embeddings.pkl are skipped, the rest contribute every
stored embedding to the running best. -/
def bestMatch (sim : Embedding → Embedding → ℚ) (test : Embedding) :
    List StoreDir → ℚ × Option String → ℚ × Option String
  | [], best => best
  | d :: rest, best =>
      match d.pkl with
      | some embs => bestMatch sim test rest (scanEmb sim test d.name embs best)
      | none => bestMatch sim test rest best

/-- verify_face (src/py.py lines 499-559): reject with no box and no
confidence unless exactly one face is detected and its crop is valid; reject
with confidence 0 when embedding extraction fails; otherwise scan every
stored embedding (best_score starts at 0, best_id at none) and accept
exactly when the best score strictly exceeds CONFIDENCE_THRESHOLD, reporting
the best score times 100. -/
def verify_face (sim : Embedding → Embedding → ℚ) (dirs : List StoreDir)
    (frame : Frame) : VerifyResult :=
  match frame.detected with
  | [box] =>
      if frame.crop_valid = true then
        match frame.embedding with
        | none => ⟨false, some box, some 0⟩
        | some test =>
            let best := bestMatch sim test dirs (0, none)
            let confidence_percent := best.1 * 100
            if best.1 > CONFIDENCE_THRESHOLD then
              ⟨true, some box, some confidence_percent⟩
            else
              ⟨false, some box, some confidence_percent⟩
      else ⟨false, none, none⟩
  | _ => ⟨false, none, none⟩

/-- What send_serial_command observes from the serial link within its one
second polling window (src/py.py lines 370-379): a response line, nothing
(timeout), or an exception during write/read. -/
inductive LinkResponse where
  | line (content : String)
  | timeout
  | failure
deriving DecidableEq, Repr

/-- send_serial_command (src/py.py lines 363-383): true only when the serial
port is open and a response line arrives before the one second deadline;
false on timeout, on an exception, or when no port is open. -/
def send_serial_command (arduinoOpen : Bool) (resp : LinkResponse) : Bool :=
  if arduinoOpen then
    match resp with
    | LinkResponse.line _ => true
    | LinkResponse.timeout => false
    | LinkResponse.failure => false
  else false

/-- The lock-command block of one verification cycle in main (src/py.py
lines 654-658): when the new decision differs from last_lock_state, send
lock_off or lock_on and set last_lock_state to the new decision.  The
returned list holds the commands sent this cycle.  The boolean result of
send_serial_command is discarded, exactly as in the source. -/
def lockStep (arduinoOpen : Bool) (resp : LinkResponse)
    (last_lock_state : Option Bool) (is_unlocked : Bool) :
    List String × Option Bool :=
  if last_lock_state ≠ some is_unlocked then
    let command := if is_unlocked then ("lock_off") else ("lock_on")
    let _ack := send_serial_command arduinoOpen resp
    ([command], some is_unlocked)
  else ([], last_lock_state)

/-- A single-face detection box used in concrete runs below. -/
def sampleBox : FaceBox := ⟨10, 10, 100, 100⟩

/-- A tick at time t carrying one valid detected face whose embedding is the
one-element vector [v]. -/
def sampleTick (t : ℚ) (v : ℚ) : Tick :=
  ⟨t, ⟨[sampleBox], true, some [v]⟩⟩

/-- Nine valid single-face ticks 0.7 s apart starting 0.7 s after t0: all
fall inside the 7 s window and respect the 0.5 s spacing. -/
def sessionTicks (t0 : ℚ) : List Tick :=
  [sampleTick (t0 + 7/10) 1, sampleTick (t0 + 14/10) 2,
   sampleTick (t0 + 21/10) 3, sampleTick (t0 + 28/10) 4,
   sampleTick (t0 + 35/10) 5, sampleTick (t0 + 42/10) 6,
   sampleTick (t0 + 49/10) 7, sampleTick (t0 + 56/10) 8,
   sampleTick (t0 + 63/10) 9]

/-- Three valid single-face ticks one second apart. -/
def shortTicks : List Tick :=
  [sampleTick 1 1, sampleTick 2 2, sampleTick 3 3]

/-! Helper lemmas about the directory model. -/

/-- Removing a name that occurs nowhere in the tree changes nothing. -/
theorem removeDir_all_ne (nm : String) :
    ∀ (l : List StoreDir), l.all (fun d => !(d.name == nm)) = true →
      removeDir l nm = l := by
  intro l
  induction l with
  | nil => intro _; rfl
  | cons d ds ih =>
    intro h
    rw [List.all_cons, Bool.and_eq_true] at h
    unfold removeDir at ih ⊢
    rw [List.filter_cons, if_pos h.1, ih h.2]

/-- If every directory name differs from nm, the any-scan for nm is false. -/
theorem any_name_false (nm : String) (l : List StoreDir)
    (h : l.all (fun d => !(d.name == nm)) = true) :
    l.any (fun d => d.name == nm) = false := by
  rw [List.all_eq_true] at h
  by_contra hx
  rw [Bool.not_eq_false, List.any_eq_true] at hx
  obtain ⟨d, hd, hdn⟩ := hx
  have := h d hd
  rw [hdn] at this
  exact absurd this (by decide)

/-- Creating the fresh session directory and then deleting it restores the
original tree, provided no existing directory already bears that name. -/
theorem removeDir_ensureDir (dirs : List StoreDir) (nm : String)
    (h : dirs.all (fun d => !(d.name == nm)) = true) :
    removeDir (ensureDir dirs nm) nm = dirs := by
  unfold ensureDir
  rw [any_name_false nm dirs h]
  simp only [Bool.false_eq_true, if_false]
  unfold removeDir
  rw [List.filter_append]
  have h1 : List.filter (fun d => !(d.name == nm)) [(⟨nm, none⟩ : StoreDir)] = [] := by
    simp [List.filter]
  rw [h1, List.append_nil]
  exact removeDir_all_ne nm dirs h

/-- Writing the pkl for name nm and then reading it back gives the written
list, provided some directory named nm is present. -/
theorem pklOf_setPkl_mem (nm : String) (embs : List Embedding) :
    ∀ (l : List StoreDir), l.any (fun d => d.name == nm) = true →
      pklOf (setPkl l nm embs) nm = some embs := by
  intro l
  induction l with
  | nil => intro h; simp at h
  | cons d ds ih =>
    intro h
    by_cases hd : (d.name == nm) = true
    · unfold setPkl pklOf
      rw [List.map_cons, if_pos hd]
      rw [List.find?_cons_of_pos _ (by simp)]
      rfl
    · have h2 : ds.any (fun x => x.name == nm) = true := by
        rw [List.any_cons] at h
        rcases Bool.or_eq_true_iff.mp h with h3 | h3
        · exact absurd h3 hd
        · exact h3
      unfold setPkl pklOf at ih ⊢
      rw [List.map_cons, if_neg hd]
      rw [List.find?_cons_of_neg _ (by simpa using hd)]
      exact ih h2

/-- The session directory created by ensureDir always receives the committed
embedding list. -/
theorem pklOf_setPkl_ensureDir (dirs : List StoreDir) (nm : String)
    (embs : List Embedding) :
    pklOf (setPkl (ensureDir dirs nm) nm embs) nm = some embs := by
  apply pklOf_setPkl_mem
  unfold ensureDir
  split
  · assumption
  · rw [List.any_append]
    simp

/-! Claim theorems. -/

/-- C1 counterexample: on a verification cycle where the decision (unlocked)
differs from last_lock_state (locked) and the Device Link times out, the
send fails yet last_lock_state is still advanced to the new decision, so the
claim that the state is updated only when the send/acknowledge succeeds is
false on this concrete cycle. -/
theorem C1_counterexample :
    send_serial_command true LinkResponse.timeout = false ∧
    (lockStep true LinkResponse.timeout (some false) true).2 = some true ∧
    (some true : Option Bool) ≠ some false := by decide

/-- C1 (amended): whenever the new decision differs from last_lock_state,
the Lock Controller sends the single state-specific command and updates
last_lock_state to the new decision unconditionally, whatever the Device
Link outcome (acknowledge, timeout or error); a failed send therefore does
not leave last_lock_state unchanged and the next cycle does not re-send. -/
theorem C1_amended_unconditional (arduinoOpen : Bool) (resp : LinkResponse)
    (last : Option Bool) (decision : Bool) (h : last ≠ some decision) :
    (lockStep arduinoOpen resp last decision).2 = some decision ∧
    (lockStep arduinoOpen resp last decision).1
      = [if decision then ("lock_off") else ("lock_on")] := by
  simp [lockStep, h]

/-- Witness for C1_amended_unconditional at a concrete timed-out cycle. -/
theorem C1_amended_witness :
    (lockStep true LinkResponse.timeout (some false) true).2 = some true ∧
    (lockStep true LinkResponse.timeout (some false) true).1
      = [if true then ("lock_off") else ("lock_on")] :=
  C1_amended_unconditional true LinkResponse.timeout (some false) true
    (by decide)

/-- C4 (confirmed): per verification cycle exactly one device command goes
out when the decision differs from the last observed decision, and a second
consecutive cycle with the same decision sends zero commands. -/
theorem C4_one_command_per_change (arduinoOpen : Bool) (resp : LinkResponse)
    (last : Option Bool) (decision : Bool) :
    (last ≠ some decision →
      ((lockStep arduinoOpen resp last decision).1).length = 1) ∧
    (∀ (a2 : Bool) (r2 : LinkResponse),
      (lockStep a2 r2 (lockStep arduinoOpen resp last decision).2 decision).1
        = []) := by
  constructor
  · intro h
    simp [lockStep, h]
  · intro a2 r2
    by_cases h : last = some decision
    · simp [lockStep, h]
    · simp [lockStep, h]

/-- Witness for C4_one_command_per_change on a concrete decision change. -/
theorem C4_witness :
    ((lockStep true (LinkResponse.line ("ok")) none true).1).length = 1 ∧
    (lockStep true (LinkResponse.line ("ok"))
        (lockStep true (LinkResponse.line ("ok")) none true).2 true).1 = [] := by
  have h := C4_one_command_per_change true (LinkResponse.line ("ok")) none true
  exact ⟨h.1 (by decide), h.2 true (LinkResponse.line ("ok"))⟩

/-- C5 (confirmed): whenever the detector returns zero or two-or-more faces,
verify_face returns REJECT with no confidence value and no face box,
whatever the identity store holds. -/
theorem C5_ambiguous_scene_reject (sim : Embedding → Embedding → ℚ)
    (dirs : List StoreDir) (frame : Frame)
    (h : frame.detected.length ≠ 1) :
    verify_face sim dirs frame = ⟨false, none, none⟩ := by
  obtain ⟨det, cv, emb⟩ := frame
  rcases det with _ | ⟨a, _ | ⟨b, tl⟩⟩
  · rfl
  · exact absurd rfl h
  · rfl

/-- Witness for C5_ambiguous_scene_reject on a zero-face frame. -/
theorem C5_witness :
    verify_face (fun _ _ => (0 : ℚ)) [] ⟨[], true, none⟩
      = ⟨false, none, none⟩ :=
  C5_ambiguous_scene_reject _ _ _ (by decide)

/-- C7 (confirmed): with an empty identity store, verify_face on a frame
with exactly one valid detected face whose embedding extraction succeeds
returns REJECT with confidence 0. -/
theorem C7_empty_store_reject (sim : Embedding → Embedding → ℚ)
    (frame : Frame) (box : FaceBox) (e : Embedding)
    (h1 : frame.detected = [box]) (h2 : frame.crop_valid = true)
    (h3 : frame.embedding = some e) :
    verify_face sim [] frame = ⟨false, some box, some 0⟩ := by
  obtain ⟨det, cv, emb⟩ := frame
  simp only at h1 h2 h3
  subst h1
  subst h2
  subst h3
  norm_num [verify_face, bestMatch, CONFIDENCE_THRESHOLD]

/-- Witness for C7_empty_store_reject on a concrete single-face frame. -/
theorem C7_witness :
    verify_face (fun _ _ => (0 : ℚ)) []
        ⟨[sampleBox], true, some [(1 : ℚ)]⟩
      = ⟨false, some sampleBox, some 0⟩ :=
  C7_empty_store_reject _ _ _ _ rfl rfl rfl

/-- C8 (confirmed): the reset action is idempotent on the identity store,
and the registered-face count is 0 after one reset (hence after two). -/
theorem C8_reset_idempotent (s : SysState) :
    resetSystem (resetSystem s) = resetSystem s ∧
    get_face_count (resetSystem s) = 0 :=
  ⟨rfl, rfl⟩

/-- C10 (confirmed): register_face raises registration_in_progress on entry
and it is false again when the call returns, on every exit path (commit,
insufficient samples, save error, unexpected exception). -/
theorem C10_registration_flag (start : ℚ) (ticks : List Tick)
    (saveOk crashed : Bool) (s : SysState) :
    (register_face_entry s).registration_in_progress = true ∧
    ((register_face start ticks saveOk crashed s).2).registration_in_progress
      = false := by
  refine ⟨rfl, ?_⟩
  simp only [register_face]
  split
  · rfl
  · split
    · split
      · rfl
      · rfl
    · rfl

/-- C6 (confirmed): within one enrollment session the accepted capture
times, chained from the running last_capture value, are always separated by
strictly more than CAPTURE_SPACING; moreover a candidate tick arriving not
more than CAPTURE_SPACING after the previously accepted capture contributes
nothing: the loop either skips it or has already stopped. -/
theorem C6_capture_spacing (start lc : ℚ) (n : Nat) (ticks : List Tick) :
    List.Chain (fun a b => b - a > CAPTURE_SPACING) lc
      ((captureAux start lc n ticks).map Prod.fst) ∧
    (∀ (tick : Tick) (rest : List Tick), ¬ (tick.t - lc > CAPTURE_SPACING) →
      captureAux start lc n (tick :: rest) = captureAux start lc n rest ∨
      captureAux start lc n (tick :: rest) = []) := by
  constructor
  · induction ticks generalizing lc n with
    | nil => exact List.Chain.nil
    | cons tick rest ih =>
      rw [captureAux]
      split
      · split
        · split
          · split
            · next hvalid _ _ _ =>
                simp only [List.map_cons]
                exact List.Chain.cons hvalid.2 (ih tick.t (n + 1))
            · exact ih lc n
          · exact ih lc n
        · exact ih lc n
      · exact List.Chain.nil
  · intro tick rest h
    rw [captureAux]
    split
    · split
      · rw [if_neg (fun hc => h hc.2)]
        left
        rfl
      · left
        rfl
    · right
      rfl

/-- Witness for C6_capture_spacing: a session whose previously accepted
capture is at time 1 and whose next candidate arrives 0.3 s later; the
candidate is dropped. -/
theorem C6_witness :
    List.Chain (fun a b => b - a > CAPTURE_SPACING) 1
      ((captureAux 0 1 0 [sampleTick (13/10) 1]).map Prod.fst) ∧
    (captureAux 0 1 0 [sampleTick (13/10) 1] = captureAux 0 1 0 [] ∨
      captureAux 0 1 0 [sampleTick (13/10) 1] = []) := by
  have h := C6_capture_spacing 0 1 0 [sampleTick (13/10) 1]
  exact ⟨h.1, h.2 (sampleTick (13/10) 1) []
    (by with_unfolding_all decide)⟩

/-- C2 counterexample: in a concrete run, an identity committed before a
full store reset receives handle 1; after resetSystem the next committed
identity again receives handle 1, and 1 is not strictly greater than 1, so
handles ARE reused across resets and the claim is false. -/
theorem C2_counterexample :
    ((register_face 0 (sessionTicks 0) true false initState).2).name_map
      = [(1, userId 1)] ∧
    ((register_face 20 (sessionTicks 20) true false
        (resetSystem
          ((register_face 0 (sessionTicks 0) true false initState).2))).2).name_map
      = [(1, userId 1)] ∧
    ¬ (1 : Nat) > 1 := by with_unfolding_all decide

/-- C2 (amended): the per-process identity counter is deliberately reset to
1 by a full store reset, so handle values are reused across resets; between
resets each committed identity receives the current counter value as its
handle and the counter then increases by exactly one, so handles strictly
increase only within a reset-free span. -/
theorem C2_amended_counter_reset (s : SysState) (start : ℚ)
    (ticks : List Tick) (saveOk crashed : Bool)
    (h : ((register_face start ticks saveOk crashed s).1).isSome = true) :
    (resetSystem s).person_counter = 1 ∧
    (register_face start ticks saveOk crashed s).1
      = some (userId s.person_counter) ∧
    ((register_face start ticks saveOk crashed s).2).person_counter
      = s.person_counter + 1 := by
  cases crashed
  · cases saveOk
    · by_cases hmin : MIN_REGISTRATION_FACES ≤ (captureAux start 0 0 ticks).length
      · simp [register_face, register_face_entry, List.length_map, hmin] at h
      · simp [register_face, register_face_entry, List.length_map, hmin] at h
    · by_cases hmin : MIN_REGISTRATION_FACES ≤ (captureAux start 0 0 ticks).length
      · refine ⟨rfl, ?_, ?_⟩ <;>
          simp [register_face, register_face_entry, List.length_map, hmin]
      · simp [register_face, register_face_entry, List.length_map, hmin] at h
  · simp [register_face, register_face_entry] at h

/-- Witness for C2_amended_counter_reset on a concrete committing session. -/
theorem C2_amended_witness :
    (resetSystem initState).person_counter = 1 ∧
    (register_face 0 (sessionTicks 0) true false initState).1
      = some (userId 1) ∧
    ((register_face 0 (sessionTicks 0) true false initState).2).person_counter
      = 2 := by
  have h := C2_amended_counter_reset initState 0 (sessionTicks 0) true false
    (by with_unfolding_all decide)
  exact ⟨h.1, h.2.1, h.2.2⟩

/-- C3 counterexample: a concrete session that collects 3 samples (at least
MIN_REGISTRATION_FACES) but whose embeddings.pkl write fails does not
commit, so commitment is not equivalent to the sample-count condition
alone. -/
theorem C3_counterexample :
    MIN_REGISTRATION_FACES ≤ (captureAux 0 0 0 shortTicks).length ∧
    (register_face 0 shortTicks false false initState).1 = none := by
  with_unfolding_all decide

/-- C3 (amended): an enrollment session commits a new identity exactly when
the collected-sample count at exit is at least MIN_REGISTRATION_FACES AND
the embeddings save succeeds AND no unexpected exception interrupts the
session; when it commits, the per-identity directory holds all collected
embeddings in capture order. -/
theorem C3_amended_commit (start : ℚ) (ticks : List Tick)
    (saveOk crashed : Bool) (s : SysState) :
    (((register_face start ticks saveOk crashed s).1).isSome = true ↔
      (MIN_REGISTRATION_FACES ≤ (captureAux start 0 0 ticks).length ∧
        saveOk = true ∧ crashed = false)) ∧
    (∀ uid : String,
      (register_face start ticks saveOk crashed s).1 = some uid →
      pklOf ((register_face start ticks saveOk crashed s).2).dirs
          (userDirName s.person_counter)
        = some ((captureAux start 0 0 ticks).map Prod.snd)) := by
  cases crashed
  · cases saveOk
    · by_cases hmin : MIN_REGISTRATION_FACES ≤ (captureAux start 0 0 ticks).length
      · constructor
        · simp [register_face, register_face_entry, List.length_map, hmin]
        · intro uid huid
          simp [register_face, register_face_entry, List.length_map, hmin]
            at huid
      · constructor
        · simp [register_face, register_face_entry, List.length_map, hmin]
        · intro uid huid
          simp [register_face, register_face_entry, List.length_map, hmin]
            at huid
    · by_cases hmin : MIN_REGISTRATION_FACES ≤ (captureAux start 0 0 ticks).length
      · constructor
        · simp [register_face, register_face_entry, List.length_map, hmin]
        · intro uid huid
          simp only [register_face, register_face_entry, List.length_map]
          rw [if_neg (by simp), if_pos (by simpa using hmin), if_pos trivial]
          exact pklOf_setPkl_ensureDir _ _ _
      · constructor
        · simp [register_face, register_face_entry, List.length_map, hmin]
        · intro uid huid
          simp [register_face, register_face_entry, List.length_map, hmin]
            at huid
  · constructor
    · simp [register_face, register_face_entry]
    · intro uid huid
      simp [register_face, register_face_entry] at huid

/-- Witness for C3_amended_commit: a session capturing exactly 9 valid,
well-spaced samples inside the 7 s window, with a successful save, commits
and persists all 9 embeddings in capture order. -/
theorem C3_amended_witness :
    (captureAux 0 0 0 (sessionTicks 0)).length = 9 ∧
    ((register_face 0 (sessionTicks 0) true false initState).1).isSome
      = true ∧
    pklOf ((register_face 0 (sessionTicks 0) true false initState).2).dirs
        (userDirName 1)
      = some ((captureAux 0 0 0 (sessionTicks 0)).map Prod.snd) := by
  have h := C3_amended_commit 0 (sessionTicks 0) true false initState
  refine ⟨by with_unfolding_all decide,
    h.1.mpr ⟨by with_unfolding_all decide, rfl, rfl⟩, ?_⟩
  exact h.2 (userId 1) (by with_unfolding_all decide)

/-- C9 (confirmed): a register_face call that exits without committing
(insufficient samples, save error or unexpected exception) returns none,
removes the partial per-identity session directory, and leaves
person_counter, name_map and the previously committed directory tree
unchanged, with the mutual-exclusion flag lowered. -/
theorem C9_abort_atomic (start : ℚ) (ticks : List Tick)
    (saveOk crashed : Bool) (s : SysState)
    (hdir : s.dirs.all
      (fun d => !(d.name == userDirName s.person_counter)) = true)
    (hfail : (register_face start ticks saveOk crashed s).1 = none) :
    ((register_face start ticks saveOk crashed s).2).dirs = s.dirs ∧
    ((register_face start ticks saveOk crashed s).2).person_counter
      = s.person_counter ∧
    ((register_face start ticks saveOk crashed s).2).name_map = s.name_map ∧
    ((register_face start ticks saveOk crashed s).2).registration_in_progress
      = false := by
  have hrm := removeDir_ensureDir s.dirs (userDirName s.person_counter) hdir
  cases crashed
  · cases saveOk
    · by_cases hmin : MIN_REGISTRATION_FACES ≤ (captureAux start 0 0 ticks).length
      · refine ⟨?_, ?_, ?_, ?_⟩ <;>
          simp [register_face, register_face_entry, List.length_map, hmin, hrm]
      · refine ⟨?_, ?_, ?_, ?_⟩ <;>
          simp [register_face, register_face_entry, List.length_map, hmin, hrm]
    · by_cases hmin : MIN_REGISTRATION_FACES ≤ (captureAux start 0 0 ticks).length
      · simp [register_face, register_face_entry, List.length_map, hmin]
          at hfail
      · refine ⟨?_, ?_, ?_, ?_⟩ <;>
          simp [register_face, register_face_entry, List.length_map, hmin, hrm]
  · refine ⟨?_, ?_, ?_, ?_⟩ <;>
      simp [register_face, register_face_entry, hrm]

/-- Witness for C9_abort_atomic: a session that observes no frames collects
no samples and aborts, leaving the fresh store untouched. -/
theorem C9_witness :
    ((register_face 0 [] false false initState).2).dirs = initState.dirs ∧
    ((register_face 0 [] false false initState).2).person_counter
      = initState.person_counter ∧
    ((register_face 0 [] false false initState).2).name_map
      = initState.name_map ∧
    ((register_face 0 [] false false initState).2).registration_in_progress
      = false :=
  C9_abort_atomic 0 [] false false initState (by decide) (by decide)
